import Mathlib

/-!
Verification of the image question/answer service (src/main.py).

The service accepts a JPEG upload, calls an external analysis API with
bounded retry, parses the reply into a (question, answer) pair, stores
the pair, and serves the most recent pairs.

Strings from the Python code are embedded as `List Char`; bytes as `Nat`
(reduced mod 256 where bit arithmetic matters); the SQLite store as a
list of records; the external API as an oracle function from attempt
index to outcome.  Stateful behaviour (database contents, number of API
attempts, inter-attempt waits) is made explicit in the result record of
the pipeline function.
-/

namespace ImageQA

/-! ## Python string primitives (over `List Char`) -/

/-- Whitespace characters removed by Python `str.strip()` (ASCII range:
space, tab, newline, carriage return, vertical tab, form feed). -/
def isSpacePy (c : Char) : Bool :=
  c = ' ' || c = '\t' || c = '\n' || c = '\r' || c = Char.ofNat 11 || c = Char.ofNat 12

/-- Python `str.strip()`: drop leading and trailing whitespace. -/
def stripPy (s : List Char) : List Char :=
  ((s.dropWhile isSpacePy).reverse.dropWhile isSpacePy).reverse

/-- Python substring containment `pat in s`. -/
def occursIn (pat : List Char) : List Char → Bool
  | [] => pat.isEmpty
  | c :: t => pat.isPrefixOf (c :: t) || occursIn pat t

/-- Locate the first occurrence of `pat` in `s`: returns the text before
it and the text after it, or `none` when `pat` does not occur. -/
def splitFirst (pat : List Char) : List Char → Option (List Char × List Char)
  | [] => if pat.isEmpty then some ([], []) else none
  | c :: t =>
    if pat.isPrefixOf (c :: t) then some ([], (c :: t).drop pat.length)
    else (splitFirst pat t).map (fun p => (c :: p.1, p.2))

/-- Python `s.split(pat, 1)`: two pieces when `pat` occurs, else `[s]`. -/
def splitPy (pat s : List Char) : List (List Char) :=
  match splitFirst pat s with
  | some p => [p.1, p.2]
  | none => [s]

/-- Scanner for `replaceAll`: while `skip` is positive the current
character belongs to an already-replaced occurrence and is dropped;
otherwise a fresh match of `pat` emits `repl` and schedules the rest of
the matched occurrence for dropping. -/
def replAux (pat repl : List Char) : ℕ → List Char → List Char
  | _, [] => []
  | k + 1, _ :: t => replAux pat repl k t
  | 0, c :: t =>
    if pat.isPrefixOf (c :: t) ∧ 0 < pat.length then
      repl ++ replAux pat repl (pat.length - 1) t
    else
      c :: replAux pat repl 0 t

/-- Python `s.replace(pat, repl)`: replace every non-overlapping
occurrence of `pat`, scanning left to right.  (The positivity guard only
matters for an empty pattern; the program always replaces a non-empty
marker.) -/
def replaceAll (pat repl s : List Char) : List Char :=
  replAux pat repl 0 s

/-- Whether `pat` occurs in `s` starting at index `i`. -/
def occursAtB (pat s : List Char) (i : ℕ) : Bool :=
  pat.isPrefixOf (s.drop i)

/-- `i` is the index of the first occurrence of `pat` in `s`. -/
def firstOccAt (pat s : List Char) (i : ℕ) : Prop :=
  occursAtB pat s i = true ∧ ∀ j, j < i → occursAtB pat s j = false

instance (pat s : List Char) (i : ℕ) : Decidable (firstOccAt pat s i) := by
  unfold firstOccAt
  infer_instance

/-! ## Response parser (src/main.py lines 189-203) -/

/-- Literal marker `"Question:"` from the code. -/
def questionMarker : List Char := "Question:".toList

/-- Literal marker `"Answer:"` from the code. -/
def answerMarker : List Char := "Answer:".toList

/-- Fallback question used when the reply lacks a marker. -/
def fallbackQuestion : List Char := "What is in the image?".toList

/-- Initial placeholder for the question (line 191); survives only in the
`except ValueError` branch. -/
def placeholderQuestion : List Char := "Could not determine the question.".toList

/-- Initial placeholder for the answer (line 191). -/
def placeholderAnswer : List Char := "Could not determine the answer.".toList

/-- The parsing block of `upload_image` (lines 191-203): when both
markers occur, split once on the first `"Answer:"`, remove every
`"Question:"` from the left piece and strip both pieces; when the
two-way unpacking would fail (Python `ValueError`), keep the question
placeholder and strip the whole text; otherwise fall back to the fixed
question with the stripped whole text as the answer. -/
def parseResponse (s : List Char) : List Char × List Char :=
  if occursIn questionMarker s && occursIn answerMarker s then
    match splitPy answerMarker s with
    | [qp, ap] => (stripPy (replaceAll questionMarker [] qp), stripPy ap)
    | _ => (placeholderQuestion, stripPy s)
  else
    (fallbackQuestion, stripPy s)

/-! ## Base64 (line 118: `base64.b64encode(content)`) -/

/-- Character of the standard base64 alphabet at index `n` (0-63). -/
def b64Char (n : ℕ) : Char :=
  if n < 26 then Char.ofNat (65 + n)
  else if n < 52 then Char.ofNat (97 + (n - 26))
  else if n < 62 then Char.ofNat (48 + (n - 52))
  else if n = 62 then '+'
  else '/'

/-- Standard base64 encoding of a byte list (bytes taken mod 256). -/
def b64encode : List ℕ → List Char
  | [] => []
  | [a] =>
    [b64Char (a % 256 / 4), b64Char (a % 4 * 16), '=', '=']
  | [a, b] =>
    [b64Char (a % 256 / 4), b64Char (a % 4 * 16 + b % 256 / 16),
     b64Char (b % 16 * 4), '=']
  | a :: b :: c :: rest =>
    [b64Char (a % 256 / 4), b64Char (a % 4 * 16 + b % 256 / 16),
     b64Char (b % 16 * 4 + c % 256 / 64), b64Char (c % 64)] ++ b64encode rest

/-- The base64 JPEG magic the specification says the validator checks. -/
def jpegMagicB64 : List Char := "/9j/".toList

/-! ## Answer store (src/main.py lines 52-74, 205-217, 221-237)

The SQLite table `answers(id, question, answer, timestamp)` is a list of
records.  `GET /answers` runs
`SELECT question, answer, timestamp FROM answers ORDER BY timestamp DESC LIMIT 20`:
its result is some arrangement of the rows that is non-increasing in
`timestamp`, truncated to 20 rows.  The `ORDER BY` names no second sort
key, so the order of rows with equal timestamps is left open; the
relation below captures exactly the set of outputs the query may
produce. -/

/-- One row of the `answers` table. -/
structure Rec where
  id : ℕ
  question : List Char
  answer : List Char
  ts : ℕ
deriving DecidableEq, Repr

/-- Semantics of the `/answers` query: `out` is a valid response for
database contents `db`. -/
def get_answers (db out : List Rec) : Prop :=
  ∃ l, db.Perm l ∧ List.Pairwise (fun a b => b.ts ≤ a.ts) l ∧ out = l.take 20

/-- The ordering the claim asserts: timestamp descending with ties
broken by identifier descending. -/
def tsIdDesc (a b : Rec) : Prop :=
  b.ts < a.ts ∨ (b.ts = a.ts ∧ b.id < a.id)

instance (a b : Rec) : Decidable (tsIdDesc a b) := by
  unfold tsIdDesc
  infer_instance

/-- Next `AUTOINCREMENT` identifier assigned by an insert. -/
def nextId (db : List Rec) : ℕ :=
  db.foldr (fun r acc => max r.id acc) 0 + 1

/-! ## Upload pipeline (src/main.py lines 95-219) -/

/-- Per-attempt failure of the external call: transport error / timeout
(the `aiohttp` exception path) or a non-success HTTP status (the
`HTTPException(502)` raised at line 173).  Both are exceptions inside
the retried coroutine, so both are retried by `tenacity`. -/
inductive ApiFail where
  | transport : ApiFail
  | badStatus : ApiFail
deriving DecidableEq, Repr

/-- Client-facing failure reasons of `upload_image`, one per
`HTTPException` raise site outside the retried call. -/
inductive Reason where
  | noFile : Reason
  | wrongType : Reason
  | tooLarge : Reason
  | apiKeyMissing : Reason
  | aiFailure : Reason
  | emptyResponse : Reason
  | dbError : Reason
deriving DecidableEq, Repr

/-- HTTP status surfaced to the client for each failure reason.  The
`HTTPException(413)` raised at line 112 sits inside the `try` of lines
108-115, whose blanket `except Exception` catches it (`HTTPException`
subclasses `Exception`, and this handler has no `isinstance` re-raise
guard, unlike lines 184-186) and re-raises a 500 — so an oversize
upload surfaces 500, not the intended 413.  Likewise the 502 raised
inside the retried coroutine (line 173) is wrapped in a `RetryError` by
`tenacity` once attempts are exhausted, and the handler at lines
182-187 maps that `RetryError` (not an `HTTPException`) to the 500 of
line 187.  The remaining raise sites surface directly: 400 (lines 102,
106), 500 (lines 123, 181, 217). -/
def statusCode : Reason → ℕ
  | .noFile => 400
  | .wrongType => 400
  | .tooLarge => 500
  | .apiKeyMissing => 500
  | .aiFailure => 500
  | .emptyResponse => 500
  | .dbError => 500

/-- Status of a finished request: FastAPI returns 200 for a normal
return value. -/
def statusOf : Except Reason (List Char × List Char) → ℕ
  | .ok _ => 200
  | .error r => statusCode r

/-- The uploaded file as FastAPI presents it: optional filename,
optional declared content type, raw bytes. -/
structure UploadFile where
  filename : Option (List Char)
  content_type : Option (List Char)
  content : List ℕ

/-- Environment of one request: the file (absent models a missing file
field), the `PPLX_API_KEY` variable, the external API as an oracle from
(request payload, attempt index) to outcome — a successful HTTP exchange
carries the extracted `choices[0].message.content` field, `none` when
that field is missing or null —, whether the `INSERT` succeeds, the
database contents and the insert timestamp. -/
structure Ctx where
  file : Option UploadFile
  apiKey : Option (List Char)
  api : List Char → ℕ → Except ApiFail (Option (List Char))
  insertOk : Bool
  db : List Rec
  now : ℕ

/-- Observable outcome of one `POST /upload` request: the HTTP result,
the database contents afterwards, the number of external attempts made,
and the waits (in seconds) performed between attempts. -/
structure UploadOutcome where
  result : Except Reason (List Char × List Char)
  db : List Rec
  attempts : ℕ
  waits : List ℕ

/-- Boolean success test for `Except`. -/
def exceptIsOk : Except ε α → Bool
  | .ok _ => true
  | .error _ => false

/-- The `tenacity` loop `retry(stop=stop_after_attempt(n), wait=wait_fixed(2))`
starting at attempt index `i` with `n` attempts remaining: returns the
first success, or the failure of the last attempt once the budget is
exhausted, together with the number of attempts made and the list of
fixed 2-second waits performed between attempts. -/
def retryFrom (f : ℕ → Except ApiFail (Option (List Char))) :
    ℕ → ℕ → Except ApiFail (Option (List Char)) × ℕ × List ℕ
  | _, 0 => (.error .transport, 0, [])
  | i, 1 => (f i, 1, [])
  | i, n + 2 =>
    match f i with
    | .ok v => (.ok v, 1, [])
    | .error _ =>
      let r := retryFrom f (i + 1) (n + 1)
      (r.1, r.2.1 + 1, 2 :: r.2.2)

/-- `call_perplexity_api` (lines 133-175): up to 3 total attempts with a
fixed 2-second wait between attempts. -/
def call_perplexity_api (f : ℕ → Except ApiFail (Option (List Char))) :
    Except ApiFail (Option (List Char)) × ℕ × List ℕ :=
  retryFrom f 0 3

/-- Declared content type accepted by the check at line 105:
`file.content_type.startswith("image/jpeg")`. -/
def jpegCT : List Char := "image/jpeg".toList

/-- The validation checks of `upload_image` (lines 101-112), in source
order: file present with a truthy filename, truthy declared content type
beginning with `"image/jpeg"`, byte length at most `5 * 1024 * 1024`.
Returns the first failing check's reason, or `none` when all pass. -/
def validate : Option UploadFile → Option Reason
  | none => some .noFile
  | some f =>
    match f.filename with
    | none => some .noFile
    | some fn =>
      if fn = [] then some .noFile
      else
        match f.content_type with
        | none => some .wrongType
        | some ct =>
          if jpegCT.isPrefixOf ct then
            if 5 * 1024 * 1024 < f.content.length then some .tooLarge
            else none
          else some .wrongType

/-- Failure outcome before any external attempt: error `r`, database
unchanged, zero attempts. -/
def mkErr (ctx : Ctx) (r : Reason) : UploadOutcome :=
  ⟨.error r, ctx.db, 0, []⟩

/-- Processing of the finished retry loop (lines 177-219): a terminal
retry failure becomes a 500, an absent or empty (falsy) content field
becomes a 500 (line 180-181), otherwise the content is parsed and the
pair inserted; a failing `INSERT` becomes a 500 (line 215-217). -/
def finishCall (ctx : Ctx)
    (r : Except ApiFail (Option (List Char)) × ℕ × List ℕ) : UploadOutcome :=
  match r.1 with
  | .error _ => ⟨.error .aiFailure, ctx.db, r.2.1, r.2.2⟩
  | .ok none => ⟨.error .emptyResponse, ctx.db, r.2.1, r.2.2⟩
  | .ok (some c) =>
    if c = [] then ⟨.error .emptyResponse, ctx.db, r.2.1, r.2.2⟩
    else
      if ctx.insertOk then
        ⟨.ok (parseResponse c),
         ctx.db ++ [⟨nextId ctx.db, (parseResponse c).1, (parseResponse c).2, ctx.now⟩],
         r.2.1, r.2.2⟩
      else ⟨.error .dbError, ctx.db, r.2.1, r.2.2⟩

/-- `upload_image` after validation passed (lines 118-219): base64
encode, check the API key (line 120: `os.getenv` may yield nothing, and
an empty string is also falsy), then run the retried external call and
finish. -/
def afterValidation (ctx : Ctx) (f : UploadFile) : UploadOutcome :=
  match ctx.apiKey with
  | none => mkErr ctx .apiKeyMissing
  | some k =>
    if k = [] then mkErr ctx .apiKeyMissing
    else finishCall ctx (call_perplexity_api (ctx.api (b64encode f.content)))

/-- The `POST /upload` handler `upload_image` (lines 95-219). -/
def upload_image (ctx : Ctx) : UploadOutcome :=
  match ctx.file with
  | none => mkErr ctx .noFile
  | some f =>
    match f.filename with
    | none => mkErr ctx .noFile
    | some fn =>
      if fn = [] then mkErr ctx .noFile
      else
        match f.content_type with
        | none => mkErr ctx .wrongType
        | some ct =>
          if jpegCT.isPrefixOf ct then
            if 5 * 1024 * 1024 < f.content.length then mkErr ctx .tooLarge
            else afterValidation ctx f
          else mkErr ctx .wrongType

/-! ## Concrete inputs used by witnesses and counterexamples -/

/-- A well-typed upload whose bytes are not a JPEG: base64 is `"AAAA"`. -/
def ctxSig : Ctx :=
  ⟨some ⟨some "a.jpg".toList, some "image/jpeg".toList, [0, 0, 0]⟩,
   some "key".toList, fun _ _ => Except.error ApiFail.transport, true, [], 0⟩

/-- A fully successful upload: valid JPEG bytes, key set, API succeeds
on the first attempt with a marker-free reply, insert succeeds. -/
def ctxOk : Ctx :=
  ⟨some ⟨some "a.jpg".toList, some "image/jpeg".toList, [255, 216, 255]⟩,
   some "key".toList, fun _ _ => Except.ok (some "Hi there.".toList), true, [], 7⟩

/-- An upload with a non-JPEG declared content type. -/
def ctxType : Ctx :=
  ⟨some ⟨some "a".toList, some "text/plain".toList, [1]⟩,
   none, fun _ _ => Except.error ApiFail.transport, true, [], 0⟩

/-- An oversize upload: one byte over the 5 MiB limit, otherwise
valid. -/
def ctxBig : Ctx :=
  ⟨some ⟨some ['a'], some jpegCT, List.replicate (5 * 1024 * 1024 + 1) 255⟩,
   some ['k'], fun _ _ => Except.ok (some ['h', 'i']), true, [], 0⟩

/-- External call that fails on every attempt. -/
def fAllFail : ℕ → Except ApiFail (Option (List Char)) :=
  fun _ => Except.error ApiFail.badStatus

/-- External call that fails once, then succeeds. -/
def fSecondOk : ℕ → Except ApiFail (Option (List Char)) :=
  fun i => if i = 0 then Except.error ApiFail.transport else Except.ok (some "ok".toList)

/-- A reply following the requested format; `"Answer:"` first occurs at
index 33. -/
def exMarker : List Char := "Question: What color is the car?\nAnswer: Red.".toList

/-- Two store rows with equal timestamps, identifiers 1 and 2. -/
def recA : Rec := ⟨1, [], [], 5⟩

/-- Second row inserted in the same second as `recA`. -/
def recB : Rec := ⟨2, [], [], 5⟩

/-- Row with timestamp 0, inserted first. -/
def recC : Rec := ⟨1, [], [], 0⟩

/-- Row with timestamp 1, inserted second. -/
def recD : Rec := ⟨2, [], [], 1⟩

/-! ## Helper lemmas on the string primitives -/

/-- An occurrence at some index implies containment. -/
theorem occursIn_of_occursAtB (pat s : List Char) (i : ℕ)
    (h : occursAtB pat s i = true) : occursIn pat s = true := by
  induction s generalizing i with
  | nil =>
    unfold occursAtB at h
    simp only [List.drop_nil] at h
    unfold occursIn
    cases pat with
    | nil => rfl
    | cons c t => simp [List.isPrefixOf] at h
  | cons c t ih =>
    cases i with
    | zero =>
      unfold occursAtB at h
      simp only [List.drop_zero] at h
      unfold occursIn
      rw [h]
      simp
    | succ j =>
      unfold occursAtB at h
      simp only [List.drop_succ_cons] at h
      unfold occursIn
      rw [ih j h]
      simp

/-- `splitFirst` at the first occurrence index returns the text before
the occurrence and the text after the pattern. -/
theorem splitFirst_firstOcc (pat s : List Char) (i : ℕ) (h : firstOccAt pat s i) :
    splitFirst pat s = some (s.take i, s.drop (i + pat.length)) := by
  obtain ⟨h1, h2⟩ := h
  induction s generalizing i with
  | nil =>
    unfold occursAtB at h1
    simp only [List.drop_nil] at h1
    have hpat : pat = [] := by
      cases pat with
      | nil => rfl
      | cons c t => simp [List.isPrefixOf] at h1
    subst hpat
    simp [splitFirst]
  | cons c t ih =>
    cases i with
    | zero =>
      unfold occursAtB at h1
      simp only [List.drop_zero] at h1
      unfold splitFirst
      rw [if_pos h1]
      simp
    | succ j =>
      have h0 : pat.isPrefixOf (c :: t) = false := by
        have := h2 0 (Nat.succ_pos j)
        unfold occursAtB at this
        simpa using this
      have h1t : occursAtB pat t j = true := by
        unfold occursAtB at h1 ⊢
        simpa [List.drop_succ_cons] using h1
      have h2t : ∀ k, k < j → occursAtB pat t k = false := by
        intro k hk
        have := h2 (k + 1) (by omega)
        unfold occursAtB at this ⊢
        simpa [List.drop_succ_cons] using this
      unfold splitFirst
      rw [if_neg (by simp [h0])]
      rw [ih j h1t h2t]
      have harith : j + 1 + pat.length = j + pat.length + 1 := by omega
      simp [harith, List.drop_succ_cons]

/-- Containment guarantees `splitFirst` succeeds. -/
theorem splitFirst_of_occursIn (pat s : List Char) (h : occursIn pat s = true) :
    ∃ p, splitFirst pat s = some p := by
  induction s with
  | nil =>
    unfold occursIn at h
    exact ⟨([], []), by unfold splitFirst; rw [if_pos h]⟩
  | cons c t ih =>
    unfold occursIn at h
    cases hp : pat.isPrefixOf (c :: t) with
    | true => exact ⟨([], (c :: t).drop pat.length), by unfold splitFirst; rw [if_pos hp]⟩
    | false =>
      have ht : occursIn pat t = true := by
        simpa [hp] using h
      obtain ⟨p, hp2⟩ := ih ht
      exact ⟨(c :: p.1, p.2), by unfold splitFirst; rw [if_neg (by simp [hp]), hp2]; rfl⟩

/-- When a marker is missing, the parser takes the fallback branch. -/
theorem parse_no_markers (s : List Char)
    (h : (occursIn questionMarker s && occursIn answerMarker s) = false) :
    parseResponse s = (fallbackQuestion, stripPy s) := by
  unfold parseResponse
  rw [h]
  simp

/-- When both markers occur, the parser takes the marker branch: the
split yields exactly two pieces and the result is built from them. -/
theorem parse_with_markers (s : List Char)
    (hq : occursIn questionMarker s = true) (ha : occursIn answerMarker s = true) :
    ∃ qp ap, splitPy answerMarker s = [qp, ap] ∧
      parseResponse s = (stripPy (replaceAll questionMarker [] qp), stripPy ap) := by
  obtain ⟨⟨qp, ap⟩, hsp⟩ := splitFirst_of_occursIn answerMarker s ha
  have hpy : splitPy answerMarker s = [qp, ap] := by
    unfold splitPy
    rw [hsp]
  refine ⟨qp, ap, hpy, ?_⟩
  unfold parseResponse
  rw [hq, ha, hpy]
  simp

/-! ## C3: fallback parsing -/

/-- C3 counterexample: the reply `" "` is non-empty, yet the returned
answer is empty — refuting the claim that the answer is non-empty for
every non-empty reply. -/
theorem parser_fallback_nonempty_cex :
    " ".toList ≠ ([] : List Char) ∧ (parseResponse " ".toList).2 = [] := by
  decide

/-- C3 (amended): for every reply lacking the `"Question:"` marker or
the `"Answer:"` marker, the parser returns the fixed question
`"What is in the image?"` and the whitespace-trimmed full reply as the
answer; the answer is non-empty whenever the trimmed reply is non-empty
(a whitespace-only reply is non-empty but yields an empty answer). -/
theorem parser_fallback_behavior (s : List Char)
    (hm : occursIn questionMarker s = false ∨ occursIn answerMarker s = false) :
    parseResponse s = (fallbackQuestion, stripPy s) ∧
    (stripPy s ≠ [] → (parseResponse s).2 ≠ []) := by
  have hcond : (occursIn questionMarker s && occursIn answerMarker s) = false := by
    rcases hm with h | h <;> simp [h]
  have he := parse_no_markers s hcond
  refine ⟨he, fun h => ?_⟩
  rw [he]
  exact h

/-- C3 witness: the fallback behavior at the marker-free reply
`"hello"`. -/
theorem parser_fallback_behavior_witness :
    parseResponse "hello".toList = (fallbackQuestion, stripPy "hello".toList) ∧
    (parseResponse "hello".toList).2 ≠ [] := by
  have h := parser_fallback_behavior "hello".toList (Or.inl (by decide))
  exact ⟨h.1, h.2 (by decide)⟩

/-! ## C4: parsing always yields a pair; non-emptiness is conditional -/

/-- C4 counterexample: the non-empty reply `"Question:Answer:"` reaches
the parser and produces an empty question and an empty answer — refuting
the claim that both fields are always non-empty. -/
theorem parser_both_empty_cex :
    "Question:Answer:".toList ≠ ([] : List Char) ∧
    parseResponse "Question:Answer:".toList = ([], []) := by
  decide

/-- C4 (amended): parsing is a total function (it never fails the
request), but the fields are only guaranteed non-empty when at least
one marker is absent and the whitespace-trimmed reply is non-empty;
whitespace-only replies or marker-only replies yield empty fields. -/
theorem parser_pair_nonempty_cond (s : List Char)
    (hm : occursIn questionMarker s = false ∨ occursIn answerMarker s = false)
    (ht : stripPy s ≠ []) :
    (parseResponse s).1 ≠ [] ∧ (parseResponse s).2 ≠ [] := by
  have hcond : (occursIn questionMarker s && occursIn answerMarker s) = false := by
    rcases hm with h | h <;> simp [h]
  rw [parse_no_markers s hcond]
  refine ⟨?_, ?_⟩
  · show fallbackQuestion ≠ []
    decide
  · show stripPy s ≠ []
    exact ht

/-- C4 witness: both fields are non-empty at the reply `"cat"`. -/
theorem parser_pair_nonempty_cond_witness :
    (parseResponse "cat".toList).1 ≠ [] ∧ (parseResponse "cat".toList).2 ≠ [] :=
  parser_pair_nonempty_cond "cat".toList (Or.inl (by decide)) (by decide)

/-! ## C5: marker-based parsing -/

/-- C5 (confirmed): for a reply containing the `"Question:"` marker,
with the first `"Answer:"` occurrence at index `i`, the parser splits
there once: the question is the text before index `i` with the
`"Question:"` marker occurrences removed and whitespace trimmed, the
answer is the text after the occurrence, whitespace trimmed. -/
theorem parser_marker_split (s : List Char) (i : ℕ)
    (hq : occursIn questionMarker s = true)
    (hi : firstOccAt answerMarker s i) :
    parseResponse s =
      (stripPy (replaceAll questionMarker [] (s.take i)),
       stripPy (s.drop (i + answerMarker.length))) := by
  have ha : occursIn answerMarker s = true := occursIn_of_occursAtB _ _ _ hi.1
  obtain ⟨qp, ap, hsp, hpr⟩ := parse_with_markers s hq ha
  have hsf : splitFirst answerMarker s = some (s.take i, s.drop (i + answerMarker.length)) :=
    splitFirst_firstOcc _ _ _ hi
  unfold splitPy at hsp
  rw [hsf] at hsp
  injection hsp with e1 rest
  injection rest with e2 _
  rw [hpr, ← e1, ← e2]

/-- C5 witness: the example reply, whose first `"Answer:"` occurrence is
at index 33. -/
theorem parser_marker_split_witness :
    firstOccAt answerMarker exMarker 33 ∧
    parseResponse exMarker =
      (stripPy (replaceAll questionMarker [] (exMarker.take 33)),
       stripPy (exMarker.drop (33 + answerMarker.length))) :=
  ⟨by decide, parser_marker_split exMarker 33 (by decide) (by decide)⟩

/-! ## C10: the exception branch of the parser -/

/-- C10 counterexample: a reply that literally equals the answer
placeholder is returned as the answer, so the returned pair does contain
a placeholder string — refuting the claim as stated. -/
theorem parser_placeholder_appears_cex :
    placeholderAnswer ≠ ([] : List Char) ∧
    (parseResponse placeholderAnswer).2 = placeholderAnswer := by
  decide

/-- C10 (amended): the exception branch is indeed unreachable — whenever
both markers occur the single split on `"Answer:"` yields exactly two
pieces, so the initial placeholder values are always overwritten; the
placeholder strings can appear in the output only by being (part of) the
reply text itself. -/
theorem parser_split_always_succeeds (s : List Char)
    (hq : occursIn questionMarker s = true)
    (ha : occursIn answerMarker s = true) :
    ∃ qp ap, splitPy answerMarker s = [qp, ap] ∧
      parseResponse s = (stripPy (replaceAll questionMarker [] qp), stripPy ap) :=
  parse_with_markers s hq ha

/-- C10 witness: the split at a concrete two-marker reply. -/
theorem parser_split_always_succeeds_witness :
    splitPy answerMarker "Question: a Answer: b".toList =
      ["Question: a ".toList, " b".toList] ∧
    parseResponse "Question: a Answer: b".toList =
      (stripPy (replaceAll questionMarker [] "Question: a ".toList),
       stripPy " b".toList) := by
  obtain ⟨qp, ap, h1, h2⟩ :=
    parser_split_always_succeeds ("Question: a Answer: b".toList) (by decide) (by decide)
  have hc : splitPy answerMarker "Question: a Answer: b".toList =
      ["Question: a ".toList, " b".toList] := by decide
  rw [hc] at h1
  injection h1 with e1 rest
  injection rest with e2 _
  rw [← e1, ← e2] at h2
  exact ⟨hc, h2⟩

/-! ## C2: the recent-answers query -/

/-- A list permutation of a two-element list is one of its two
arrangements. -/
theorem perm_pair_cases (a b : Rec) (l : List Rec) (h : List.Perm [a, b] l) :
    l = [a, b] ∨ l = [b, a] := by
  have hlen : l.length = 2 := by
    have := h.length_eq
    simpa using this.symm
  obtain ⟨x, y, rfl⟩ := List.length_eq_two.mp hlen
  have hx : x ∈ [a, b] := h.symm.subset (by simp)
  rcases List.mem_pair.mp hx with hxa | hxb
  · subst hxa
    have hby : b = y := List.singleton_perm_singleton.mp ((List.perm_cons x).mp h)
    subst hby
    exact Or.inl rfl
  · subst hxb
    have h2 : List.Perm [x, a] [x, y] := ((List.Perm.swap x a []).symm).trans h
    have hay : a = y := List.singleton_perm_singleton.mp ((List.perm_cons x).mp h2)
    subst hay
    exact Or.inr rfl

/-- C2 counterexample: with two rows of equal timestamp inserted as
identifier 1 then identifier 2, the query may return them in identifier
ascending order — the `ORDER BY` has no identifier tie-break, refuting
the claimed ordering and the claimed `recent(2) = [R2, R1]` behavior. -/
theorem recent_tiebreak_cex :
    get_answers [recA, recB] [recA, recB] ∧ ¬ List.Pairwise tsIdDesc [recA, recB] := by
  constructor
  · exact ⟨[recA, recB], List.Perm.refl _, by decide, rfl⟩
  · decide

/-- C2 (amended): every response of the query has at most 20 records and
is ordered by timestamp descending (non-strictly); when the two rows of
the store have strictly increasing timestamps, the response is exactly
the newer row followed by the older row.  Ties in the timestamp carry no
ordering guarantee. -/
theorem recent_sorted_bounded (db out : List Rec) (h : get_answers db out) :
    out.length ≤ 20 ∧
    List.Pairwise (fun a b => b.ts ≤ a.ts) out ∧
    ∀ r1 r2, db = [r1, r2] → r1.ts < r2.ts → out = [r2, r1] := by
  obtain ⟨l, hperm, hsort, rfl⟩ := h
  refine ⟨?_, ?_, ?_⟩
  · rw [List.length_take]
    omega
  · exact hsort.sublist (List.take_sublist 20 l)
  · intro r1 r2 hdb hlt
    subst hdb
    rcases perm_pair_cases r1 r2 l hperm with hl | hl
    · subst hl
      rcases List.pairwise_cons.mp hsort with ⟨hrel, _⟩
      have := hrel r2 (by simp)
      omega
    · subst hl
      rfl

/-- C2 witness: a two-row store with strictly increasing timestamps. -/
theorem recent_sorted_bounded_witness :
    ([recD, recC] : List Rec).length ≤ 20 ∧
    List.Pairwise (fun a b : Rec => b.ts ≤ a.ts) [recD, recC] ∧
    ([recD, recC] : List Rec) = [recD, recC] := by
  have h := recent_sorted_bounded [recC, recD] [recD, recC]
    ⟨[recD, recC], List.Perm.swap recD recC [], by decide, rfl⟩
  exact ⟨h.1, h.2.1, h.2.2 recC recD rfl (by decide)⟩

/-! ## Helper lemmas on the pipeline -/

/-- `upload_image` is the validation checks followed, on success, by the
rest of the pipeline. -/
theorem upload_image_eq (ctx : Ctx) :
    upload_image ctx =
      match validate ctx.file, ctx.file with
      | some r, _ => mkErr ctx r
      | none, some f => afterValidation ctx f
      | none, none => mkErr ctx .noFile := by
  obtain ⟨cfile, ckey, capi, cins, cdb, cnow⟩ := ctx
  cases cfile with
  | none => rfl
  | some f =>
    obtain ⟨ofn, oct, content⟩ := f
    cases ofn with
    | none => rfl
    | some fn =>
      by_cases hfn : fn = []
      · simp [upload_image, validate, hfn]
      · cases oct with
        | none => simp [upload_image, validate, hfn]
        | some ct =>
          cases hct : jpegCT.isPrefixOf ct with
          | false => simp [upload_image, validate, hfn, hct]
          | true =>
            by_cases hsz : 5 * 1024 * 1024 < content.length
            · simp [upload_image, validate, hfn, hct, hsz]
            · simp [upload_image, validate, hfn, hct, hsz]

/-- A failed validation short-circuits the whole request. -/
theorem upload_validate_err (ctx : Ctx) (r : Reason)
    (h : validate ctx.file = some r) : upload_image ctx = mkErr ctx r := by
  rw [upload_image_eq, h]

/-- A passed validation hands over to the rest of the pipeline. -/
theorem upload_validate_ok (ctx : Ctx) (f : UploadFile) (hf : ctx.file = some f)
    (h : validate ctx.file = none) : upload_image ctx = afterValidation ctx f := by
  rw [upload_image_eq, h, hf]

/-- Validation only passes on a present file. -/
theorem validate_none_file (ctx : Ctx) (h : validate ctx.file = none) :
    ∃ f, ctx.file = some f := by
  cases hf : ctx.file with
  | none =>
    rw [hf] at h
    exact absurd h (by simp [validate])
  | some f => exact ⟨f, rfl⟩

/-- Every outcome of the finished call either fails with status 500 and
an unchanged store, or succeeds with status 200 and appends exactly the
parsed pair. -/
theorem finishCall_spec (ctx : Ctx)
    (r : Except ApiFail (Option (List Char)) × ℕ × List ℕ) :
    ((finishCall ctx r).db = ctx.db ∧ exceptIsOk (finishCall ctx r).result = false ∧
      statusOf (finishCall ctx r).result = 500) ∨
    (∃ q a, (finishCall ctx r).result = Except.ok (q, a) ∧
      (finishCall ctx r).db = ctx.db ++ [⟨nextId ctx.db, q, a, ctx.now⟩] ∧
      statusOf (finishCall ctx r).result = 200) := by
  obtain ⟨res, n, ws⟩ := r
  cases res with
  | error e => exact Or.inl ⟨rfl, rfl, rfl⟩
  | ok v =>
    cases v with
    | none => exact Or.inl ⟨rfl, rfl, rfl⟩
    | some c =>
      by_cases hc : c = []
      · left
        refine ⟨?_, ?_, ?_⟩ <;> simp [finishCall, hc, exceptIsOk, statusOf, statusCode]
      · by_cases hins : ctx.insertOk
        · right
          refine ⟨(parseResponse c).1, (parseResponse c).2, ?_, ?_, ?_⟩ <;>
            simp [finishCall, hc, hins, statusOf]
        · left
          refine ⟨?_, ?_, ?_⟩ <;>
            simp [finishCall, hc, hins, statusOf, exceptIsOk, statusCode]

/-- Same dichotomy for the whole post-validation pipeline. -/
theorem afterValidation_spec (ctx : Ctx) (f : UploadFile) :
    ((afterValidation ctx f).db = ctx.db ∧
      exceptIsOk (afterValidation ctx f).result = false ∧
      statusOf (afterValidation ctx f).result = 500) ∨
    (∃ q a, (afterValidation ctx f).result = Except.ok (q, a) ∧
      (afterValidation ctx f).db = ctx.db ++ [⟨nextId ctx.db, q, a, ctx.now⟩] ∧
      statusOf (afterValidation ctx f).result = 200) := by
  obtain ⟨cfile, ckey, capi, cins, cdb, cnow⟩ := ctx
  cases ckey with
  | none => exact Or.inl ⟨rfl, rfl, rfl⟩
  | some k =>
    by_cases hk : k = []
    · left
      refine ⟨?_, ?_, ?_⟩ <;> simp [afterValidation, hk, mkErr, statusOf, exceptIsOk, statusCode]
    · have := finishCall_spec ⟨cfile, some k, capi, cins, cdb, cnow⟩
        (call_perplexity_api (capi (b64encode f.content)))
      simpa [afterValidation, hk] using this

/-! ## C1: the validation checks -/

/-- C1 counterexample: an upload whose bytes are not JPEG (their base64
does not begin with `"/9j/"`) passes validation and triggers 3 external
attempts, refuting both the claimed fourth check and the claimed absence
of an external call for such inputs. -/
theorem validator_no_signature_cex :
    jpegMagicB64.isPrefixOf (b64encode [0, 0, 0]) = false ∧
    ctxSig.file = some ⟨some "a.jpg".toList, some "image/jpeg".toList, [0, 0, 0]⟩ ∧
    (upload_image ctxSig).attempts = 3 ∧
    (upload_image ctxSig).result = Except.error Reason.aiFailure :=
  ⟨rfl, rfl, rfl, rfl⟩

/-- C1 (amended): the code's validator accepts exactly when the file is
present with a non-empty filename, the declared content type begins with
`"image/jpeg"`, and the byte length is at most `5 * 1024 * 1024`; a
violated condition rejects with that check's reason before any external
attempt (zero attempts, store unchanged); there is no emptiness or
base64-`"/9j/"` check on the bytes — validation is independent of the
byte values. -/
theorem validator_accepts_iff (ctx : Ctx) :
    (validate ctx.file = none ↔
      ∃ f fn ct, ctx.file = some f ∧ f.filename = some fn ∧ fn ≠ [] ∧
        f.content_type = some ct ∧ jpegCT.isPrefixOf ct = true ∧
        f.content.length ≤ 5 * 1024 * 1024) ∧
    (∀ r, validate ctx.file = some r → upload_image ctx = mkErr ctx r) ∧
    (∀ f g : UploadFile, f.filename = g.filename → f.content_type = g.content_type →
      f.content.length = g.content.length → validate (some f) = validate (some g)) := by
  refine ⟨?_, fun r h => upload_validate_err ctx r h, ?_⟩
  · cases hf : ctx.file with
    | none => simp [validate, hf]
    | some f =>
      obtain ⟨ofn, oct, content⟩ := f
      cases ofn with
      | none => simp [validate, hf]
      | some fn =>
        by_cases hfn : fn = []
        · simp [validate, hf, hfn]
        · cases oct with
          | none => simp [validate, hf, hfn]
          | some ct =>
            cases hct : jpegCT.isPrefixOf ct with
            | false =>
              simp only [validate, hf, hfn, hct, if_neg, if_false, Bool.false_eq_true]
              constructor
              · intro h
                simp [hfn] at h
              · rintro ⟨g, gfn, gct, hg, h1, h2, h3, h4, h5⟩
                injection hg with hg
                subst hg
                simp at h1 h3
                subst h1
                subst h3
                simp [hct] at h4
            | true =>
              by_cases hsz : 5 * 1024 * 1024 < content.length
              · constructor
                · intro h
                  simp [validate, hfn, hct, hsz] at h
                · rintro ⟨g, gfn, gct, hg, h1, h2, h3, h4, h5⟩
                  injection hg with hg
                  subst hg
                  simp at h3 h5
                  subst h3
                  omega
              · constructor
                · intro _
                  exact ⟨⟨some fn, some ct, content⟩, fn, ct, rfl, rfl, hfn, rfl, hct, by
                    simp
                    omega⟩
                · intro _
                  simp [validate, hfn, hct, hsz]
  · intro f g h1 h2 h3
    obtain ⟨ffn, fct, fc⟩ := f
    obtain ⟨gfn, gct, gc⟩ := g
    simp at h1 h2 h3
    subst h1
    subst h2
    simp [validate, h3]

/-- C1 witness: a text upload is rejected as wrong type with no external
attempt and an unchanged store. -/
theorem validator_accepts_iff_witness :
    upload_image ctxType = mkErr ctxType Reason.wrongType :=
  (validator_accepts_iff ctxType).2.1 Reason.wrongType rfl

/-! ## C6: the retry policy -/

/-- C6 (confirmed): when every attempt fails, exactly 3 attempts are
made, separated by the two fixed 2-second waits, and the single terminal
failure is the last attempt's failure; when the first attempt fails and
the second succeeds, exactly 2 attempts are made with one 2-second wait
and the successful reply is returned. -/
theorem retry_three_attempts (f : ℕ → Except ApiFail (Option (List Char))) :
    ((∀ i, i < 3 → exceptIsOk (f i) = false) →
      call_perplexity_api f = (f 2, 3, [2, 2]) ∧ exceptIsOk (f 2) = false) ∧
    (∀ v, exceptIsOk (f 0) = false → f 1 = Except.ok v →
      call_perplexity_api f = (Except.ok v, 2, [2])) := by
  constructor
  · intro h
    refine ⟨?_, h 2 (by omega)⟩
    have h0 := h 0 (by omega)
    have h1 := h 1 (by omega)
    cases hf0 : f 0 with
    | ok v => rw [hf0] at h0; simp [exceptIsOk] at h0
    | error e0 =>
      cases hf1 : f 1 with
      | ok v => rw [hf1] at h1; simp [exceptIsOk] at h1
      | error e1 => simp [call_perplexity_api, retryFrom, hf0, hf1]
  · intro v h0 h1
    cases hf0 : f 0 with
    | ok w => rw [hf0] at h0; simp [exceptIsOk] at h0
    | error e0 => simp [call_perplexity_api, retryFrom, hf0, h1]

/-- C6 witness: an always-failing oracle and a fail-then-succeed
oracle. -/
theorem retry_three_attempts_witness :
    (call_perplexity_api fAllFail = (fAllFail 2, 3, [2, 2]) ∧
      exceptIsOk (fAllFail 2) = false) ∧
    call_perplexity_api fSecondOk = (Except.ok (some "ok".toList), 2, [2]) :=
  ⟨(retry_three_attempts fAllFail).1 (by decide),
   (retry_three_attempts fSecondOk).2 (some "ok".toList) (by decide) rfl⟩

/-! ## C7: store atomicity across the pipeline -/

/-- C7 (confirmed): a request that fails at any stage — validation,
configuration, the external call, the empty-reply check, or the insert —
leaves the store unchanged; a successful request appends exactly one
full record holding the parsed pair. -/
theorem store_all_or_nothing (ctx : Ctx) :
    (exceptIsOk (upload_image ctx).result = false → (upload_image ctx).db = ctx.db) ∧
    (∀ q a, (upload_image ctx).result = Except.ok (q, a) →
      (upload_image ctx).db = ctx.db ++ [⟨nextId ctx.db, q, a, ctx.now⟩]) := by
  cases hv : validate ctx.file with
  | some r =>
    have he := upload_validate_err ctx r hv
    rw [he]
    exact ⟨fun _ => rfl, fun q a hok => by simp [mkErr] at hok⟩
  | none =>
    obtain ⟨f, hf⟩ := validate_none_file ctx hv
    rw [upload_validate_ok ctx f hf hv]
    rcases afterValidation_spec ctx f with ⟨hdb, hres, _⟩ | ⟨q, a, hres, hdb, _⟩
    · refine ⟨fun _ => hdb, fun q a hok => ?_⟩
      rw [hok] at hres
      simp [exceptIsOk] at hres
    · refine ⟨fun hne => ?_, fun q' a' hok => ?_⟩
      · rw [hres] at hne
        simp [exceptIsOk] at hne
      · rw [hres] at hok
        injection hok with hqa
        rw [Prod.mk.injEq] at hqa
        obtain ⟨hq, ha⟩ := hqa
        subst hq
        subst ha
        exact hdb

/-- C7 witness: success appends exactly the parsed record; a rejected
upload leaves the store unchanged. -/
theorem store_all_or_nothing_witness :
    (upload_image ctxOk).db =
      ctxOk.db ++ [⟨nextId ctxOk.db, fallbackQuestion, "Hi there.".toList, ctxOk.now⟩] ∧
    (upload_image ctxType).db = ctxType.db :=
  ⟨(store_all_or_nothing ctxOk).2 fallbackQuestion ("Hi there.".toList) rfl,
   (store_all_or_nothing ctxType).1 rfl⟩

/-! ## C8: HTTP status codes -/

/-- C8 (code bug in the oversize path): line 112 raises
`HTTPException(413, "Image is too large (max 5MB).")`, but that raise
sits inside the `try` of lines 108-115 whose blanket `except Exception`
catches it — `HTTPException` subclasses `Exception` and this handler,
unlike the one at lines 184-186, has no `isinstance` re-raise guard —
and re-raises `HTTPException(500, "An error occurred while reading the
file: ...")`.  The client therefore receives 500 where the claim (and
the code's own raise site) says 413.  Evaluated at a concrete upload of
`5 * 1024 * 1024 + 1` bytes: the request fails with the size reason,
before any external attempt and with the store unchanged, and its
surfaced status is 500, not 413. -/
theorem upload_oversize_surfaces_500 :
    upload_image ctxBig = mkErr ctxBig Reason.tooLarge ∧
    statusOf (upload_image ctxBig).result = 500 ∧
    statusOf (upload_image ctxBig).result ≠ 413 ∧
    (upload_image ctxBig).attempts = 0 := by
  have hpre : jpegCT.isPrefixOf jpegCT = true := by decide
  have hne : (['a'] : List Char) ≠ [] := by decide
  have hgen : ∀ content : List ℕ, 5 * 1024 * 1024 < content.length →
      validate (some ⟨some ['a'], some jpegCT, content⟩) = some Reason.tooLarge := by
    intro content hlen
    simp [validate, hpre, hne, hlen]
  have hv : validate ctxBig.file = some Reason.tooLarge :=
    hgen (List.replicate (5 * 1024 * 1024 + 1) 255)
      (by rw [List.length_replicate]; omega)
  have hu := upload_validate_err ctxBig Reason.tooLarge hv
  rw [hu]
  exact ⟨rfl, rfl, by decide, rfl⟩

/-! ## C9: the content-type check is a prefix match -/

/-- C9 (confirmed): for an upload with a filename, the content-type
check fails exactly when the declared type does not begin with
`"image/jpeg"` — so values with trailing parameters pass — and an absent
declared type fails the check. -/
theorem jpeg_content_type_check (fn ct : List Char) (content : List ℕ)
    (hfn : fn ≠ []) :
    (validate (some ⟨some fn, some ct, content⟩) ≠ some Reason.wrongType ↔
      jpegCT.isPrefixOf ct = true) ∧
    validate (some ⟨some fn, none, content⟩) = some Reason.wrongType := by
  constructor
  · cases hct : jpegCT.isPrefixOf ct with
    | true =>
      constructor
      · intro _
        rfl
      · intro _
        by_cases hsz : 5 * 1024 * 1024 < content.length <;>
          simp [validate, hfn, hct, hsz]
    | false =>
      constructor
      · intro h
        exact absurd (by simp [validate, hfn, hct]) h
      · intro h
        simp at h
  · simp [validate, hfn]

/-- C9 witness: a declared type with trailing parameters passes the
check. -/
theorem jpeg_content_type_check_witness :
    (validate (some ⟨some "a".toList, some "image/jpeg; charset=utf-8".toList, []⟩) ≠
        some Reason.wrongType ↔
      jpegCT.isPrefixOf "image/jpeg; charset=utf-8".toList = true) ∧
    validate (some ⟨some "a".toList, none, []⟩) = some Reason.wrongType :=
  jpeg_content_type_check ("a".toList) ("image/jpeg; charset=utf-8".toList) [] (by decide)

end ImageQA
